import Mathlib

/-!
Verification of the DARKGLASS captcha service core against its specification.

The development shallowly embeds the Python sources:
  security.py       (HMAC-SHA256 windowed signing, sign_payload / verify_signature)
  sessions.py       (InMemorySession store with TTL expiry and lazy cleanup)
  gemini_client.py  (local challenge generator and local answer verification)
  agents.py         (GeneratorAgent.run and ValidatorAgent.run)

Modelling conventions:
  - Python values that flow through dicts are embedded as the inductive type Val.
  - time.time() is a parameter now : Nat (seconds); Python float subtraction
    on timestamps is modelled with Nat subtraction, which agrees on the
    branches taken because timestamps are monotone.
  - Python exceptions are modelled with Except String; a try/except block is a
    match on the Except value.
  - The remote oracle is taken as unconfigured (GEMINI_API_KEY unset), which is
    the deterministic path of the source; decide_and_create_challenge then
    equals the local generator, and verify_with_ai goes to the local heuristics.
  - The media renderers (PIL, gTTS) are out of scope per the specification and
    are passed in as opaque functions that may fail.
  - HMAC-SHA256 is embedded in full and is executable, so signatures evaluate.
-/

set_option maxRecDepth 100000

/-! ## Bytes, hex and UTF-8 helpers -/

/-- Mask for 32-bit words. -/
def u32mask : Nat := 4294967296

/-- Right rotation of a 32-bit word. -/
def rotr32 (n x : Nat) : Nat := ((x >>> n) ||| (x <<< (32 - n))) % u32mask

/-- The n bytes of x, big endian. -/
def toBytesBE (n x : Nat) : List Nat :=
  (List.range n).map (fun i => (x >>> (8 * (n - 1 - i))) % 256)

/-- Chunk a list into pieces of k elements; fuel bounds the recursion. -/
def chunkList : Nat → Nat → List Nat → List (List Nat)
  | 0, _, _ => []
  | _, _, [] => []
  | fuel+1, k, l => l.take k :: chunkList fuel k (l.drop k)

/-- Big-endian word from bytes. -/
def wordOfBytes (bs : List Nat) : Nat := bs.foldl (fun acc b => acc * 256 + b) 0

/-- Lowercase hex digit. -/
def hexChar (n : Nat) : Char := if n < 10 then Char.ofNat (48 + n) else Char.ofNat (87 + n)

/-- Two lowercase hex digits of a byte. -/
def byteToHex (b : Nat) : String := String.mk [hexChar (b / 16), hexChar (b % 16)]

/-- Lowercase hex of a byte list, as hexdigest produces. -/
def bytesToHex (bs : List Nat) : String := String.join (bs.map byteToHex)

/-- UTF-8 encoding of one character, as a list of byte values. -/
def utf8EncodeChar (c : Char) : List Nat :=
  let n := c.toNat
  if n < 128 then [n]
  else if n < 2048 then [192 + n / 64, 128 + n % 64]
  else if n < 65536 then [224 + n / 4096, 128 + (n / 64) % 64, 128 + n % 64]
  else [240 + n / 262144, 128 + (n / 4096) % 64, 128 + (n / 64) % 64, 128 + n % 64]

/-- UTF-8 bytes of a string, matching str.encode() in Python. -/
def strBytes (s : String) : List Nat := (s.data.map utf8EncodeChar).flatten

/-! ## SHA-256 (FIPS 180-4), executable -/

/-- The 64 SHA-256 round constants, in eight rows of eight. -/
def shaK : List Nat :=
  [0x428a2f98, 0x71374491, 0xb5c0fbcf, 0xe9b5dba5, 0x3956c25b, 0x59f111f1, 0x923f82a4, 0xab1c5ed5]
    ++ [0xd807aa98, 0x12835b01, 0x243185be, 0x550c7dc3, 0x72be5d74, 0x80deb1fe, 0x9bdc06a7, 0xc19bf174]
    ++ [0xe49b69c1, 0xefbe4786, 0x0fc19dc6, 0x240ca1cc, 0x2de92c6f, 0x4a7484aa, 0x5cb0a9dc, 0x76f988da]
    ++ [0x983e5152, 0xa831c66d, 0xb00327c8, 0xbf597fc7, 0xc6e00bf3, 0xd5a79147, 0x06ca6351, 0x14292967]
    ++ [0x27b70a85, 0x2e1b2138, 0x4d2c6dfc, 0x53380d13, 0x650a7354, 0x766a0abb, 0x81c2c92e, 0x92722c85]
    ++ [0xa2bfe8a1, 0xa81a664b, 0xc24b8b70, 0xc76c51a3, 0xd192e819, 0xd6990624, 0xf40e3585, 0x106aa070]
    ++ [0x19a4c116, 0x1e376c08, 0x2748774c, 0x34b0bcb5, 0x391c0cb3, 0x4ed8aa4a, 0x5b9cca4f, 0x682e6ff3]
    ++ [0x748f82ee, 0x78a5636f, 0x84c87814, 0x8cc70208, 0x90befffa, 0xa4506ceb, 0xbef9a3f7, 0xc67178f2]

/-- The SHA-256 initial hash state. -/
def shaH0 : List Nat :=
  [0x6a09e667, 0xbb67ae85, 0x3c6ef372, 0xa54ff53a, 0x510e527f, 0x9b05688c, 0x1f83d9ab, 0x5be0cd19]

/-- Big sigma 0. -/
def bsig0 (x : Nat) : Nat := rotr32 2 x ^^^ rotr32 13 x ^^^ rotr32 22 x

/-- Big sigma 1. -/
def bsig1 (x : Nat) : Nat := rotr32 6 x ^^^ rotr32 11 x ^^^ rotr32 25 x

/-- Small sigma 0. -/
def ssig0 (x : Nat) : Nat := rotr32 7 x ^^^ rotr32 18 x ^^^ (x >>> 3)

/-- Small sigma 1. -/
def ssig1 (x : Nat) : Nat := rotr32 17 x ^^^ rotr32 19 x ^^^ (x >>> 10)

/-- Choice function; complement is xor with the 32-bit mask. -/
def chF (x y z : Nat) : Nat := (x &&& y) ^^^ ((x ^^^ 0xffffffff) &&& z)

/-- Majority function. -/
def majF (x y z : Nat) : Nat := (x &&& y) ^^^ (x &&& z) ^^^ (y &&& z)

/-- Extend the 16 block words by n scheduled words. -/
def shaExtend : Nat → List Nat → List Nat
  | 0, w => w
  | n+1, w =>
      let i := w.length
      let nw := (w.getD (i-16) 0 + ssig0 (w.getD (i-15) 0) + w.getD (i-7) 0 + ssig1 (w.getD (i-2) 0)) % u32mask
      shaExtend n (w ++ [nw])

/-- One SHA-256 round on the 8-word working state, given (word, constant). -/
def shaRound (st : List Nat) (kw : Nat × Nat) : List Nat :=
  match st with
  | [a, b, c, d, e, f, g, h] =>
    let t1 := (h + bsig1 e + chF e f g + kw.2 + kw.1) % u32mask
    let t2 := (bsig0 a + majF a b c) % u32mask
    [(t1 + t2) % u32mask, a, b, c, (d + t1) % u32mask, e, f, g]
  | other => other

/-- Compress one 16-word block into the hash state. -/
def shaCompress (h : List Nat) (block : List Nat) : List Nat :=
  let w := shaExtend 48 block
  let st := (w.zip shaK).foldl shaRound h
  (h.zip st).map (fun p => (p.1 + p.2) % u32mask)

/-- SHA-256 padding of a byte message. -/
def padMessage (msg : List Nat) : List Nat :=
  let l := msg.length
  let k := (119 - (l % 64)) % 64
  msg ++ [128] ++ List.replicate k 0 ++ toBytesBE 8 (8 * l)

/-- SHA-256 digest bytes of a byte message. -/
def sha256Bytes (msg : List Nat) : List Nat :=
  let padded := padMessage msg
  let blocks := (chunkList padded.length 64 padded).map (fun b => (chunkList 64 4 b).map wordOfBytes)
  let hh := blocks.foldl shaCompress shaH0
  (hh.map (toBytesBE 4)).flatten

/-- HMAC-SHA256 hexdigest, as hmac.new(key, msg, hashlib.sha256).hexdigest(). -/
def hmacSha256Hex (key msg : String) : String :=
  let kb0 := strBytes key
  let kb := if kb0.length > 64 then sha256Bytes kb0 else kb0
  let kpad := kb ++ List.replicate (64 - kb.length) 0
  let ipadK := kpad.map (fun b => b ^^^ 0x36)
  let opadK := kpad.map (fun b => b ^^^ 0x5c)
  bytesToHex (sha256Bytes (opadK ++ sha256Bytes (ipadK ++ strBytes msg)))

/-! ## Python value embedding

Values flowing through the Python dicts (challenge payloads, answers, results)
are embedded as the inductive type Val. Floats are not part of the embedding:
the only float the core produces is the reported click distance, which is
irrelevant to every claim and is noted where it is dropped. -/

/-- A Python/JSON-like value. -/
inductive Val where
  | vNull
  | vBool (b : Bool)
  | vInt (n : Int)
  | vStr (s : String)
  | vList (xs : List Val)
  | vObj (kvs : List (String × Val))

/-- A single quote character, written via its code point. -/
def apos : String := String.singleton (Char.ofNat 39)

/-- The comma character. -/
def commaChar : Char := Char.ofNat 44

/-- Python truthiness of an embedded value. -/
def pyTruthy : Val → Bool
  | .vNull => false
  | .vBool b => b
  | .vInt n => n != 0
  | .vStr s => !s.data.isEmpty
  | .vList xs => !xs.isEmpty
  | .vObj kvs => !kvs.isEmpty

/-- Join strings with a separator. -/
def joinSep (sep : String) : List String → String
  | [] => ""
  | [x] => x
  | x :: xs => x ++ sep ++ joinSep sep xs

/-- Python repr of a value, fuel-bounded so that it reduces in the kernel;
the fuel passed by pyStr always suffices. String escaping inside repr is not
needed by any value the claims touch. -/
def pyReprF : Nat → Val → String
  | 0, _ => ""
  | _+1, .vNull => "None"
  | _+1, .vBool b => if b then "True" else "False"
  | _+1, .vInt n => toString n
  | _+1, .vStr s => apos ++ s ++ apos
  | f+1, .vList xs => "[" ++ joinSep ", " (xs.map (pyReprF f)) ++ "]"
  | f+1, .vObj kvs =>
      "\x7b" ++ joinSep ", " (kvs.map (fun kv => apos ++ kv.1 ++ apos ++ ": " ++ pyReprF f kv.2)) ++ "\x7d"

/-- Fuel used for the fuel-bounded recursions over Val. The fuel only bounds
the nesting depth (it decreases once per level, lazily), and every value the
service constructs has depth below ten, so the bound is never reached. A
constant is used because the derived sizeOf of a nested inductive is not
executable. -/
def VAL_FUEL : Nat := 1000000

/-- Python str() of a value. -/
def pyStr (v : Val) : String :=
  match v with
  | .vStr s => s
  | v => pyReprF VAL_FUEL v

/-- Python equality on embedded values, fuel-bounded. Booleans compare equal
to the integers 0 and 1 as in Python; dicts compare by key lookup. -/
def pyEqF : Nat → Val → Val → Bool
  | 0, _, _ => false
  | _+1, .vNull, .vNull => true
  | _+1, .vBool a, .vBool b => a == b
  | _+1, .vInt a, .vInt b => a == b
  | _+1, .vBool a, .vInt b => (if a then (1 : Int) else 0) == b
  | _+1, .vInt a, .vBool b => a == (if b then (1 : Int) else 0)
  | _+1, .vStr a, .vStr b => a == b
  | f+1, .vList as, .vList bs =>
      as.length == bs.length && (as.zip bs).all (fun p => pyEqF f p.1 p.2)
  | f+1, .vObj as, .vObj bs =>
      as.length == bs.length &&
        as.all (fun kv => match bs.lookup kv.1 with
          | some w => pyEqF f kv.2 w
          | none => false)
  | _+1, _, _ => false

/-- Python equality on embedded values. -/
def pyEq (a b : Val) : Bool := pyEqF VAL_FUEL a b

/-- Whitespace characters recognised by str.strip(). -/
def wsChars : List Char :=
  [Char.ofNat 32, Char.ofNat 9, Char.ofNat 10, Char.ofNat 13, Char.ofNat 11, Char.ofNat 12]

/-- Whitespace test. -/
def isWs (c : Char) : Bool := wsChars.contains c

/-- Python str.strip(). -/
def strStrip (s : String) : String :=
  String.mk (((s.data.dropWhile isWs).reverse.dropWhile isWs).reverse)

/-- Python str.lower(), for the ASCII strings the generator produces. -/
def strLower (s : String) : String := String.mk (s.data.map Char.toLower)

/-- Split on commas, keeping empty pieces, as str.split(",") does. -/
def splitCommaAux : List Char → List Char → List String
  | [], acc => [String.mk acc.reverse]
  | c :: rest, acc =>
    if c = commaChar then String.mk acc.reverse :: splitCommaAux rest []
    else splitCommaAux rest (c :: acc)

/-- Python str.split(","). -/
def splitComma (s : String) : List String := splitCommaAux s.data []

/-- Comma membership test on a string. -/
def strHasComma (s : String) : Bool := s.data.contains commaChar

/-- A token of decimal digits parsed to a number: the guard models
x.isdigit() for ASCII tokens and the parse models int(x). -/
def digitTokenToNat? (s : String) : Option Nat :=
  if !s.data.isEmpty && s.data.all Char.isDigit then
    some (s.data.foldl (fun a c => a * 10 + (c.toNat - 48)) 0)
  else none

/-- The index list parsed from a comma separated answer string, as in the
pattern branch of verify_with_ai: split on commas, strip each piece, keep
the all-digit pieces, convert with int(). -/
def parsePatternIndices (s : String) : List Nat :=
  ((splitComma s).map strStrip).filterMap digitTokenToNat?

/-- Substring test on character lists. -/
def listIsInfix : List Char → List Char → Bool
  | needle, [] => needle.isEmpty
  | needle, c :: rest => needle.isPrefixOf (c :: rest) || listIsInfix needle rest

/-- Substring test: does hay contain needle. -/
def strContainsSub (hay needle : String) : Bool := listIsInfix needle.data hay.data

/-- Dict get with default on an association list. -/
def objGetD (kvs : List (String × Val)) (k : String) (d : Val) : Val :=
  match kvs.lookup k with
  | some v => v
  | none => d

/-- Python value.get(key, default): raises when the value is not a dict. -/
def pyGetD (v : Val) (k : String) (d : Val) : Except String Val :=
  match v with
  | .vObj kvs => .ok (objGetD kvs k d)
  | _ => .error "AttributeError: get on a non-dict value"

/-- View a value as a dict, as dict(x) does; raises otherwise. -/
def asObj : Val → Except String (List (String × Val))
  | .vObj kvs => .ok kvs
  | _ => .error "TypeError: value is not a dict"

/-- Python membership test key in value, for the value shapes that occur:
dicts test keys, strings test substrings, lists test elements; anything else
raises as in Python. -/
def pyContains (v : Val) (k : String) : Except String Bool :=
  match v with
  | .vObj kvs => .ok (kvs.lookup k).isSome
  | .vStr s => .ok (strContainsSub s k)
  | .vList xs => .ok (xs.any (fun x => pyEq x (.vStr k)))
  | _ => .error "TypeError: argument is not iterable"

/-- Parse of int(s) on a stripped string: optional sign then digits. -/
def parseIntStr (s : String) : Option Int :=
  let t := strStrip s
  match t.data with
  | [] => none
  | c :: rest =>
    if c = Char.ofNat 45 then (digitTokenToNat? (String.mk rest)).map (fun n => -(n : Int))
    else if c = Char.ofNat 43 then (digitTokenToNat? (String.mk rest)).map (fun n => (n : Int))
    else (digitTokenToNat? t).map (fun n => (n : Int))

/-- Python int() on an embedded value; raising cases become errors. -/
def pyToInt : Val → Except String Int
  | .vInt n => .ok n
  | .vBool b => .ok (if b then 1 else 0)
  | .vStr s =>
    match parseIntStr s with
    | some n => .ok n
    | none => .error "ValueError: invalid literal for int()"
  | _ => .error "TypeError: int() argument has a wrong type"

/-- Dict item assignment d[k] = v: replace the first binding in place or
append a new one, as Python dicts do. -/
def setKey : List (String × Val) → String → Val → List (String × Val)
  | [], k, v => [(k, v)]
  | (k1, v1) :: rest, k, v =>
    if k1 == k then (k, v) :: rest else (k1, v1) :: setKey rest k v

/-! ## json.dumps with sorted keys

GeneratorAgent.run and ValidatorAgent.run both canonicalise a challenge with
json.dumps(challenge, sort_keys=True, ensure_ascii=False); the default
separators put one space after each comma and colon. -/

/-- Code point lexicographic order on character lists, as Python compares
strings. -/
def charListLt : List Char → List Char → Bool
  | [], [] => false
  | [], _ :: _ => true
  | _ :: _, [] => false
  | a :: as, b :: bs =>
    if a.toNat < b.toNat then true
    else if b.toNat < a.toNat then false
    else charListLt as bs

/-- Code point lexicographic order on strings. -/
def strLt (a b : String) : Bool := charListLt a.data b.data

/-- Insert one binding into a key-sorted list. -/
def insertByKey (p : String × Val) : List (String × Val) → List (String × Val)
  | [] => [p]
  | q :: rest => if strLt p.1 q.1 then p :: q :: rest else q :: insertByKey p rest

/-- Sort bindings by key, as sort_keys=True does (code point order). -/
def sortByKey (l : List (String × Val)) : List (String × Val) := l.foldr insertByKey []

/-- JSON escape of one character; ensure_ascii=False leaves other characters
as they are. -/
def jsonEscapeChar (c : Char) : String :=
  if c = Char.ofNat 34 then "\\" ++ String.singleton (Char.ofNat 34)
  else if c = Char.ofNat 92 then "\\\\"
  else if c = Char.ofNat 10 then "\\n"
  else if c = Char.ofNat 13 then "\\r"
  else if c = Char.ofNat 9 then "\\t"
  else if c = Char.ofNat 8 then "\\b"
  else if c = Char.ofNat 12 then "\\f"
  else if c.toNat < 32 then "\\u00" ++ byteToHex c.toNat
  else String.singleton c

/-- JSON escape of a string body. -/
def jsonEscape (s : String) : String := String.join (s.data.map jsonEscapeChar)

/-- A JSON string literal. -/
def quoteJson (s : String) : String :=
  String.singleton (Char.ofNat 34) ++ jsonEscape s ++ String.singleton (Char.ofNat 34)

/-- json.dumps with sorted keys, fuel-bounded for kernel reduction. -/
def dumpValF : Nat → Val → String
  | 0, _ => ""
  | _+1, .vNull => "null"
  | _+1, .vBool b => if b then "true" else "false"
  | _+1, .vInt n => toString n
  | _+1, .vStr s => quoteJson s
  | f+1, .vList xs => "[" ++ joinSep ", " (xs.map (dumpValF f)) ++ "]"
  | f+1, .vObj kvs =>
      "\x7b" ++
        joinSep ", " ((sortByKey kvs).map (fun kv => quoteJson kv.1 ++ ": " ++ dumpValF f kv.2)) ++
      "\x7d"

/-- json.dumps(v, sort_keys=True, ensure_ascii=False). -/
def jsonDumps (v : Val) : String := dumpValF VAL_FUEL v

/-! ## security.py -/

/-- The signature window width, WINDOW_SECONDS = 300. -/
def WINDOW_SECONDS : Nat := 300

/-- sign_payload: HMAC over session_id, payload and the current time window.
The secret is the CAPTCHA_HMAC_SECRET environment value, passed explicitly. -/
def sign_payload (secret session_id payload_str : String) (now : Nat) : String :=
  let ts := toString ((now / WINDOW_SECONDS : Nat) : Int)
  hmacSha256Hex secret (session_id ++ "|" ++ payload_str ++ "|" ++ ts)

/-- verify_signature: recompute the MAC for the current window and the
previous one; hmac.compare_digest is equality on the hex digests. -/
def verify_signature (secret session_id payload_str signature : String) (now : Nat) : Bool :=
  let tsNow : Int := ((now / WINDOW_SECONDS : Nat) : Int)
  [(0 : Int), -1].any (fun offset =>
    hmacSha256Hex secret
        (session_id ++ "|" ++ payload_str ++ "|" ++ toString (tsNow + offset))
      == signature)

/-! ## sessions.py -/

/-- The stored active challenge of a session: challenge dict, signature and
creation time. -/
structure StoredCaptcha where
  challenge : Val
  signature : String
  created : Nat

/-- One session record, with the fields created by InMemorySession.create. -/
structure Session where
  created : Nat
  captcha : Option StoredCaptcha
  attempts : Nat
  last_attempt : Nat
  generation_count : Nat

/-- The process-wide store: the sessions table plus the last cleanup time. -/
structure Store where
  sessions : List (String × Session)
  last_cleanup : Nat

/-- Session TTL in seconds (3600 inline in the source). -/
def SESSION_TTL : Nat := 3600

/-- InMemorySession.get: missing sessions and sessions older than the TTL
behave as absent; an expired session is deleted on access. -/
def Store.get (st : Store) (sid : String) (now : Nat) : Option Session × Store :=
  match st.sessions.lookup sid with
  | none => (none, st)
  | some s =>
    if now - s.created > SESSION_TTL then
      (none, ⟨st.sessions.filter (fun kv => kv.1 != sid), st.last_cleanup⟩)
    else (some s, st)

/-- InMemorySession. cleanup: at most every 300 seconds, evict all expired
sessions. -/
def Store.cleanup (st : Store) (now : Nat) : Store :=
  if now - st.last_cleanup > 300 then
    ⟨st.sessions.filter (fun kv => !(decide (now - kv.2.created > SESSION_TTL))), now⟩
  else st

/-- InMemorySession.update: merge fields into an existing session, then run
the cleanup sweep; a no-op when the session id is absent. -/
def Store.update (st : Store) (sid : String) (f : Session → Session) (now : Nat) : Store :=
  if (st.sessions.lookup sid).isSome then
    Store.cleanup
      ⟨st.sessions.map (fun kv => if kv.1 = sid then (kv.1, f kv.2) else kv), st.last_cleanup⟩
      now
  else st

/-- InMemorySession.create, with the fresh uuid passed in explicitly. -/
def Store.create (st : Store) (sid : String) (now : Nat) : Store :=
  Store.cleanup
    ⟨st.sessions ++ [(sid, ⟨now, none, 0, 0, 0⟩)], st.last_cleanup⟩
    now

/-! ## gemini_client.py: local answer verification

The remote oracle is unconfigured in the embedding (the deterministic source
path), so verify_with_ai goes directly to the local heuristics. The body runs
under a catch-all except; verifyBody is the body, verify_with_ai the boundary.
A raised exception is an Except.error carrying the message text. -/

/-- The local result dict of verify_with_ai: keys ok, correct, explanation,
and the optional keys normalized_answer (local paths), normalized (remote
path) and error (exception paths); absent keys are none. -/
structure VerifyResult where
  ok : Bool
  correct : Bool
  explanation : String
  normalized_answer : Option Val
  normalized : Option Val
  error : Option String

/-- Membership of a value among type names: equality against a str in Python
is only true for str values. -/
def isTypeIn (ctype : Val) (ts : List String) : Bool :=
  match ctype with
  | .vStr s => ts.contains s
  | _ => false

/-- The body of verify_with_ai (local heuristics), inside the outer except.
The click-distance comparison dist <= tol on math.hypot is embedded as the
exact test 0 <= tol and dx^2 + dy^2 <= tol^2, which is equivalent for the
integer inputs int() has just produced; the normalized_answer distance dict
carries only that float and is dropped from the embedding. -/
def verifyBody (stored_challenge : Val) (user_answer : Val) : Except String VerifyResult := do
  let ctype ← pyGetD stored_challenge "captcha_type" .vNull
  let sol ← pyGetD stored_challenge "solution" (.vObj [])
  if isTypeIn ctype ["text", "math", "audio"] then
    let v ← pyGetD sol "value" (.vStr "")
    let expected := strLower (strStrip (pyStr v))
    let provided := strLower (strStrip (pyStr user_answer))
    pure ⟨true, expected == provided, "fallback-exact-compare", some (.vStr provided), none, none⟩
  else if isTypeIn ctype ["pattern"] then
    let seqPart ← pyGetD sol "sequence" .vNull
    let valPart ← pyGetD sol "value" .vNull
    let expected_seq := if pyTruthy seqPart then seqPart else valPart
    let user_seq : Val :=
      match user_answer with
      | .vStr t =>
        if strHasComma t then .vList ((parsePatternIndices t).map (fun n => .vInt (n : Int)))
        else .vStr t
      | .vList xs => .vList xs
      | _ => .vList []
    pure ⟨true, pyEq user_seq expected_seq, "fallback-sequence-compare", some user_seq, none, none⟩
  else if isTypeIn ctype ["image"] then
    let hasX ← pyContains sol "x"
    let hasY ← if hasX then pyContains sol "y" else pure false
    if hasX && hasY then
      let inner : Except String VerifyResult := do
        let tx ← pyToInt (← pyGetD sol "x" .vNull)
        let ty ← pyToInt (← pyGetD sol "y" .vNull)
        let tol ← pyToInt (← pyGetD sol "tolerance" (.vInt 18))
        let uxy? : Option (Except String (Int × Int)) :=
          match user_answer with
          | .vObj kvs => some (do
              let ux ← pyToInt (objGetD kvs "x" (.vInt (-9999)))
              let uy ← pyToInt (objGetD kvs "y" (.vInt (-9999)))
              pure (ux, uy))
          | .vList xs =>
            if xs.length ≥ 2 then some (do
              let ux ← pyToInt (xs.getD 0 .vNull)
              let uy ← pyToInt (xs.getD 1 .vNull)
              pure (ux, uy))
            else none
          | _ => none
        match uxy? with
        | none => pure ⟨true, false, "fallback-bad-input-for-image", none, none, none⟩
        | some exy => do
          let uxy ← exy
          let d2 : Int := (uxy.1 - tx)^2 + (uxy.2 - ty)^2
          pure ⟨true, decide (0 ≤ tol) && decide (d2 ≤ tol^2), "fallback-point", none, none, none⟩
      match inner with
      | .ok r => pure r
      | .error ex => pure ⟨false, false, "fallback-exception-image", none, none, some ex⟩
    else
      let v ← pyGetD sol "value" (.vStr "")
      let expected := strLower (strStrip (pyStr v))
      let provided := strLower (strStrip (pyStr user_answer))
      pure ⟨true, expected == provided, "fallback-image-word-compare", some (.vStr provided), none, none⟩
  else if isTypeIn ctype ["color"] then
    let v ← pyGetD sol "value" (.vStr "")
    let expected := strLower (strStrip (pyStr v))
    let provided := strLower (strStrip (pyStr user_answer))
    pure ⟨true, expected == provided, "fallback-color-compare", some (.vStr provided), none, none⟩
  else
    pure ⟨false, false, "unsupported-type-fallback", none, none, none⟩

/-- verify_with_ai at its boundary: the catch-all except converts any raised
exception into an ok=false, correct=false result carrying the message. -/
def verify_with_ai (stored_challenge user_answer : Val) : VerifyResult :=
  match verifyBody stored_challenge user_answer with
  | .ok r => r
  | .error ex => ⟨false, false, "fallback-exception", none, none, some ex⟩

/-! ## gemini_client.py: local challenge generation

The source draws every branch choice from random.Random; the embedding takes
the drawn values as an explicit GenChoices record, and GenChoices.WF records
the randint and choice ranges the source guarantees for the fields the
claims rely on. -/

/-- The random draws consumed by one run of the local generator. -/
structure GenChoices where
  cid : String
  ctype : String
  word : String
  a : Nat
  b : Nat
  op : String
  shapes : List String
  seq : List Nat
  imageClick : Bool
  x : Nat
  y : Nat
  tol : Nat
  audioIsWord : Bool
  nums : List Nat
  color : Nat × Nat × Nat
  seedVal : Val

/-- The color palette of the color branch. -/
def palette : List (Nat × Nat × Nat) :=
  [(255,0,0), (0,255,0), (0,0,255), (255,255,0), (255,165,0),
   (128,0,128), (255,192,203), (0,0,0), (255,255,255), (128,128,128), (165,42,42)]

/-- Ranges the source draws from, for the fields the claims use. -/
def GenChoices.WF (c : GenChoices) : Prop :=
  c.ctype ∈ ["text", "math", "pattern", "image", "audio", "color"] ∧
  2 ≤ c.a ∧ c.a ≤ 18 ∧ 1 ≤ c.b ∧ c.b ≤ 12 ∧ c.op ∈ ["+", "-", "*"] ∧
  40 ≤ c.x ∧ c.x ≤ 380 ∧ 30 ≤ c.y ∧ c.y ≤ 170 ∧ 12 ≤ c.tol ∧ c.tol ≤ 28 ∧
  c.color ∈ palette

/-- The builtin color-name table of the nearest-name helper, in source
order. -/
def commonColors : List (String × (Nat × Nat × Nat)) :=
  [("red", (255,0,0)), ("green", (0,255,0)), ("blue", (0,0,255)),
   ("yellow", (255,255,0)), ("orange", (255,165,0)), ("purple", (128,0,128)),
   ("pink", (255,192,203)), ("black", (0,0,0)), ("white", (255,255,255)),
   ("gray", (128,128,128)), ("brown", (165,42,42)), ("cyan", (0,255,255))]

/-- Squared euclidean distance between rgb triples. -/
def dist2 (a b : Nat × Nat × Nat) : Int :=
  ((a.1 : Int) - (b.1 : Int))^2 + ((a.2.1 : Int) - (b.2.1 : Int))^2 +
    ((a.2.2 : Int) - (b.2.2 : Int))^2

/-- Two lowercase hex digits, as the 02x format directive. -/
def hex2 (n : Nat) : String := byteToHex (n % 256)

/-- The nearest common color name, or a hex fallback when nothing is within
distance 150; the float sqrt comparisons are embedded as the equivalent
integer comparisons on squared distances. -/
def nearest_color_name (rgb : Nat × Nat × Nat) : String :=
  let best := commonColors.foldl
    (fun acc nc =>
      let d := dist2 nc.2 rgb
      match acc with
      | none => some (nc.1, d)
      | some bd => if d < bd.2 then some (nc.1, d) else some bd)
    none
  match best with
  | some bd => if bd.2 < 22500 then bd.1 else "#" ++ hex2 rgb.1 ++ hex2 rgb.2.1 ++ hex2 rgb.2.2
  | none => "#" ++ hex2 rgb.1 ++ hex2 rgb.2.1 ++ hex2 rgb.2.2

/-- Assemble the out dict of the local generator: the five base keys in
creation order, then the metadata appended at the end. -/
def mkChallengeObj (cid ctype instr : String) (ui sol seedVal : Val) : Val :=
  .vObj [("captcha_id", .vStr cid), ("captcha_type", .vStr ctype),
         ("instructions", .vStr instr), ("ui_data", ui), ("solution", sol),
         ("metadata", .vObj [("generated_by", .vStr "local_fallback"), ("seed", seedVal)])]

/-- local_generate_random_challenge of gemini_client.py, over explicit
random draws. The unreachable final else draws one more random word; the
embedding reuses the word field for that draw. -/
def local_generate_random_challenge (c : GenChoices) : Val :=
  if c.ctype == "text" then
    mkChallengeObj c.cid "text" "Type the word shown (case-insensitive)."
      (.vObj [("question", .vStr ("Type the word " ++ apos ++ c.word ++ apos)),
              ("hint", .vStr "case-insensitive")])
      (.vObj [("value", .vStr c.word)]) c.seedVal
  else if c.ctype == "math" then
    let val : Int :=
      if c.op == "+" then (c.a : Int) + (c.b : Int)
      else if c.op == "-" then (c.a : Int) - (c.b : Int)
      else (c.a : Int) * (c.b : Int)
    mkChallengeObj c.cid "math" "Solve the arithmetic expression and type the result."
      (.vObj [("question", .vStr ("What is " ++ toString c.a ++ " " ++ c.op ++ " " ++ toString c.b ++ " ?"))])
      (.vObj [("value", .vStr (toString val))]) c.seedVal
  else if c.ctype == "pattern" then
    mkChallengeObj c.cid "pattern" "Click the shapes in the required order."
      (.vObj [("shapes", .vList (c.shapes.map (fun s => .vStr s)))])
      (.vObj [("sequence", .vList (c.seq.map (fun n => .vInt (n : Int))))]) c.seedVal
  else if c.ctype == "image" then
    if c.imageClick then
      let desc := "Render a noisy background with the word " ++ apos ++ c.word ++ apos ++
        " prominently. Also include a small subtle ring near coordinates approx " ++
        toString c.x ++ "," ++ toString c.y ++ " (for a click-point target)."
      mkChallengeObj c.cid "image" "Click the indicated target in the image."
        (.vObj [("description", .vStr desc),
                ("hint", .vStr "Click the small ring or target in the image.")])
        (.vObj [("x", .vInt (c.x : Int)), ("y", .vInt (c.y : Int)),
                ("tolerance", .vInt (c.tol : Int))]) c.seedVal
    else
      let desc := "Render a noisy image containing the word " ++ apos ++ c.word ++ apos ++
        " with rotated letters and background random shapes."
      mkChallengeObj c.cid "image" "Type the word shown in the image (case-insensitive)."
        (.vObj [("description", .vStr desc), ("hint", .vStr "Type the word you can read")])
        (.vObj [("value", .vStr c.word)]) c.seedVal
  else if c.ctype == "audio" then
    if c.audioIsWord then
      mkChallengeObj c.cid "audio" "Listen to the audio and type what you hear."
        (.vObj [("text", .vStr ("Please type the word " ++ c.word)),
                ("hint", .vStr "case-insensitive")])
        (.vObj [("value", .vStr c.word)]) c.seedVal
    else
      let seqStr := joinSep " " (c.nums.map toString)
      mkChallengeObj c.cid "audio" "Listen and type the numbers spoken."
        (.vObj [("text", .vStr ("Type the numbers: " ++ seqStr)),
                ("hint", .vStr "digits separated by space")])
        (.vObj [("value", .vStr seqStr)]) c.seedVal
  else if c.ctype == "color" then
    let cname := nearest_color_name c.color
    mkChallengeObj c.cid "color" "Type the name (or hex) of the color shown."
      (.vObj [("color_rgb", .vList [.vInt (c.color.1 : Int), .vInt (c.color.2.1 : Int),
                                    .vInt (c.color.2.2 : Int)]),
              ("hint", .vStr "Common names or hex are accepted (case-insensitive).")])
      (.vObj [("value", .vStr cname)]) c.seedVal
  else
    mkChallengeObj c.cid "text" ("Type the word " ++ apos ++ c.word ++ apos)
      (.vObj [("question", .vStr ("Type the word " ++ apos ++ c.word ++ apos))])
      (.vObj [("value", .vStr c.word)]) c.seedVal

/-! ## agents.py -/

/-- The media renderers of captcha_generator.py (PIL, gTTS) are external per
the specification; the orchestrator receives them as opaque functions that
may raise. pyHash stands for the builtin hash() used for seeds. -/
structure RenderEnv where
  create_image_from_description : Val → Int → Except String Val
  create_audio_from_text : Val → Except String Val
  prepare_pattern_ui : Val → Int → Except String Val
  create_color_image : Val → Int → Except String Val
  pyHash : Val → Int

/-- Equality of a value against a string literal, as the == dispatch. -/
def valEqStr (v : Val) (s : String) : Bool :=
  match v with
  | .vStr t => t == s
  | _ => false

/-- The try block of GeneratorAgent.run: per-type rendering into a copy of
ui_data; a raised error is the Except.error case. -/
def renderStep (env : RenderEnv) (ctype : Val) (ui_obj : List (String × Val))
    (challenge : List (String × Val)) : Except String Val := do
  if valEqStr ctype "image" then
    let desc := objGetD ui_obj "description" (.vStr "")
    let seed := env.pyHash (objGetD challenge "captcha_id" .vNull)
    let img ← env.create_image_from_description desc seed
    pure (.vObj (setKey ui_obj "image_base64" img))
  else if valEqStr ctype "audio" then
    let text := objGetD ui_obj "text" (.vStr "")
    let audio ← env.create_audio_from_text text
    pure (.vObj (setKey ui_obj "audio_base64" audio))
  else if valEqStr ctype "pattern" then
    let shapes := objGetD ui_obj "shapes" (.vList [])
    let seed := env.pyHash (objGetD challenge "captcha_id" .vNull)
    env.prepare_pattern_ui shapes seed
  else if valEqStr ctype "color" then
    let rgb := objGetD ui_obj "color_rgb" .vNull
    match rgb with
    | .vList l =>
      if l.length == 3 then do
        let seed := env.pyHash (objGetD challenge "captcha_id" .vNull)
        let img ← env.create_color_image rgb seed
        pure (.vObj (setKey ui_obj "image_base64" img))
      else throw "Invalid color_rgb"
    | _ => throw "Invalid color_rgb"
  else if valEqStr ctype "text" || valEqStr ctype "math" then
    pure (.vObj ui_obj)
  else
    throw ("Unsupported captcha_type " ++ apos ++ pyStr ctype ++ apos)

namespace GeneratorAgent

/-- GeneratorAgent.run. The oracle output (decide_and_create_challenge) is
passed in as challenge0; with the remote unconfigured it is a local
generator value. Returns the client view and the new store; Except captures
exceptions raised outside the try block (non-dict oracle output). -/
def run (env : RenderEnv) (secret : String) (st : Store) (session_id : String)
    (now : Nat) (challenge0 : Val) : Except String (Val × Store) := do
  match Store.get st session_id now with
  | (none, st1) => pure (.vObj [("error", .vStr "invalid-session")], st1)
  | (some session, st1) =>
    let c0 ← asObj challenge0
    let ctype := objGetD c0 "captcha_type" .vNull
    let ui_dataRaw := objGetD c0 "ui_data" (.vObj [])
    let ui_data := if pyTruthy ui_dataRaw then ui_dataRaw else .vObj []
    let ui_obj ← asObj ui_data
    let cr : List (String × Val) × Val :=
      match renderStep env ctype ui_obj c0 with
      | .ok ru => (c0, ru)
      | .error e =>
        let fallback_word := "solara" ++ toString (now % 10000)
        let instr := "Type the word " ++ apos ++ fallback_word ++ apos
        let fb : List (String × Val) :=
          [("captcha_id", objGetD c0 "captcha_id" (.vStr ("fallback-" ++ toString now))),
           ("captcha_type", .vStr "text"),
           ("instructions", .vStr instr),
           ("ui_data", .vObj [("question", .vStr instr)]),
           ("solution", .vObj [("value", .vStr fallback_word)]),
           ("metadata", .vObj [("fallback", .vBool true), ("render_error", .vStr e)])]
        (fb, .vObj [("question", .vStr instr)])
    let challenge_to_store := setKey cr.1 "ui_data" cr.2
    let challenge_repr := jsonDumps (.vObj challenge_to_store)
    let signature := sign_payload secret session_id challenge_repr now
    let st2 := Store.update st1 session_id
      (fun s => { s with
        captcha := some ⟨.vObj challenge_to_store, signature, now⟩,
        attempts := 0,
        last_attempt := 0,
        generation_count := session.generation_count + 1 }) now
    pure (.vObj [
      ("captcha_id", objGetD challenge_to_store "captcha_id" .vNull),
      ("captcha_type", objGetD challenge_to_store "captcha_type" .vNull),
      ("instructions", objGetD challenge_to_store "instructions" .vNull),
      ("ui_data", objGetD challenge_to_store "ui_data" .vNull),
      ("signature", .vStr signature)], st2)

end GeneratorAgent

/-- The outcome of one ValidatorAgent.run call: the result dict, the store
afterwards, and whether the oracle judge (verify_with_ai) was invoked on
this path. The flag instruments the control flow and is true exactly on the
branches of the source that reach the verify_with_ai call. -/
structure ValidatorOutcome where
  result : Val
  store : Store
  oracle_called : Bool

namespace ValidatorAgent

/-- The no-active-captcha rejection dict. -/
def noActiveResult : Val :=
  .vObj [("success", .vBool false), ("error", .vStr "No active captcha")]

/-- The failed-signature rejection dict. -/
def sigFailResult : Val :=
  .vObj [("success", .vBool false),
         ("error", .vStr "Stored challenge failed signature verification")]

/-- The rate-limited rejection dict. -/
def rateLimitResult : Val :=
  .vObj [("success", .vBool false), ("error", .vStr "Too many attempts. Try again later.")]

/-- ValidatorAgent.run. -/
def run (secret : String) (st : Store) (session_id : String) (user_answer : Val)
    (now : Nat) : ValidatorOutcome :=
  match Store.get st session_id now with
  | (none, st1) => ⟨noActiveResult, st1, false⟩
  | (some session, st1) =>
    match session.captcha with
    | none => ⟨noActiveResult, st1, false⟩
    | some stored =>
      let challenge := stored.challenge
      let signature := stored.signature
      let challenge_repr := jsonDumps challenge
      if verify_signature secret session_id challenge_repr signature now then
        let attempts := session.attempts
        let last := session.last_attempt
        if attempts ≥ 6 ∧ now - last < 60 then
          ⟨rateLimitResult, st1, false⟩
        else
          let verify_result := verify_with_ai challenge user_answer
          let st2 := Store.update st1 session_id
            (fun s => { s with attempts := attempts + 1, last_attempt := now }) now
          if !verify_result.ok then
            ⟨.vObj [("success", .vBool false), ("error", .vStr "verification_unavailable"),
                    ("meta", .vStr verify_result.explanation)], st2, true⟩
          else
            let correct := verify_result.correct
            let explanation := verify_result.explanation
            let normalizedA := (verify_result.normalized).getD .vNull
            let normalized :=
              if pyTruthy normalizedA then normalizedA
              else (verify_result.normalized_answer).getD .vNull
            if correct then
              let st3 := Store.update st2 session_id
                (fun s => { s with captcha := none, attempts := 0 }) now
              ⟨.vObj [("success", .vBool true), ("message", .vStr "Captcha correct"),
                      ("explanation", .vStr explanation), ("normalized", normalized)], st3, true⟩
            else
              ⟨.vObj [("success", .vBool false), ("message", .vStr "Incorrect captcha"),
                      ("explanation", .vStr explanation), ("normalized", normalized)], st2, true⟩
      else ⟨sigFailResult, st1, false⟩

end ValidatorAgent


/-! ## Fixtures used by the claim witnesses and counterexamples -/

/-! Concrete fixtures for the validator witnesses. -/

/-- A minimal stored text challenge. -/
def wChallenge : Val :=
  .vObj [("captcha_type", .vStr "text"), ("solution", .vObj [("value", .vStr "w")])]

/-- Its signature for session s at time 1000 under secret k. -/
def wChallengeSig : String := sign_payload "k" "s" (jsonDumps wChallenge) 1000

/-- A session that has used up its attempt budget moments ago. -/
def c3Session : Session := ⟨1000, some ⟨wChallenge, wChallengeSig, 1000⟩, 6, 990, 1⟩

/-- The store holding it. -/
def c3Store : Store := ⟨[("s", c3Session)], 1000⟩

/-- A session whose stored signature is garbage. -/
def c10Session : Session := ⟨1000, some ⟨wChallenge, "bogus", 1000⟩, 0, 0, 1⟩

/-- The store holding it. -/
def c10Store : Store := ⟨[("s", c10Session)], 1000⟩

/-- A session one failed attempt in, with a valid stored signature. -/
def c5Session : Session := ⟨1000, some ⟨wChallenge, wChallengeSig, 1000⟩, 1, 900, 1⟩

/-- The store holding it. -/
def c5Store : Store := ⟨[("s", c5Session)], 1000⟩

/-- Renderers that always succeed, with a constant hash; only the failure
path of the orchestrator depends on them in the witnesses. -/
def envOk : RenderEnv :=
  ⟨fun _ _ => .ok (.vStr "img-base64"),
   fun _ => .ok (.vStr "audio-base64"),
   fun s _ => .ok (.vObj [("shapes", s),
     ("hint", .vStr "Click the shapes in the order requested. Tap each shape once.")]),
   fun _ _ => .ok (.vStr "color-base64"),
   fun _ => 0⟩

/-- An oracle challenge of an unsupported type. -/
def c4Challenge : List (String × Val) :=
  [("captcha_id", .vStr "c4"), ("captcha_type", .vStr "video"), ("ui_data", .vObj [])]

/-- A fresh session and store for the C4 witness. -/
def c4Store : Store := ⟨[("s", ⟨1000, none, 0, 0, 0⟩)], 1000⟩

/-- A fresh store for the C1 witness. -/
def c1wStore : Store := ⟨[("s", ⟨500, none, 0, 0, 0⟩)], 500⟩

/-- The oracle challenge used by the C1 witness. -/
def c1wChallenge : Val :=
  .vObj [("captcha_id", .vStr "t1"), ("captcha_type", .vStr "text"),
         ("instructions", .vStr "Type it."),
         ("ui_data", .vObj [("question", .vStr "Type it.")]),
         ("solution", .vObj [("value", .vStr "w")])]

/-- The random draws of a click-target image challenge: coordinates (100, 50)
with tolerance 15 and word sol, all inside the ranges the generator draws
from. -/
def c1Choices : GenChoices :=
  { cid := "img1", ctype := "image", word := "sol", a := 2, b := 1, op := "+",
    shapes := [], seq := [], imageClick := true, x := 100, y := 50, tol := 15,
    audioIsWord := true, nums := [], color := (255, 0, 0), seedVal := .vNull }

/-- The description string the local generator embeds for those draws. -/
def c1Desc : String :=
  "Render a noisy background with the word " ++ apos ++ "sol" ++ apos ++
  " prominently. Also include a small subtle ring near coordinates approx " ++
  "100,50 (for a click-point target)."

/-- A fresh store for the C1 counterexample. -/
def c1Store : Store := ⟨[("s", ⟨1000, none, 0, 0, 0⟩)], 1000⟩

/-- The pattern challenge dict of the C6 witness, with solution sequence
0, 1, 2. -/
def c6kvs : List (String × Val) :=
  [("captcha_type", .vStr "pattern"),
   ("solution", .vObj [("sequence", .vList [.vInt 0, .vInt 1, .vInt 2])])]

/-- The image challenge dict of the C7 witness: target (100, 100) with
tolerance 15. -/
def c7kvs : List (String × Val) :=
  [("captcha_type", .vStr "image"),
   ("solution", .vObj [("x", .vInt 100), ("y", .vInt 100), ("tolerance", .vInt 15)])]

/-- A text challenge whose solution slot holds a plain string, so that the
body raises on sol.get. -/
def c9bad : Val := .vObj [("captcha_type", .vStr "text"), ("solution", .vStr "oops")]

/-- A challenge of an unknown type. -/
def c9unk : Val := .vObj [("captcha_type", .vStr "video")]

/-! ## Helper functions and lemmas for the claim theorems -/

/-- Key lookup inside a dict value. -/
def valLookup (v : Val) (k : String) : Option Val :=
  match v with
  | .vObj kvs => kvs.lookup k
  | _ => none

/-- Two-level key lookup inside nested dict values. -/
def valLookup2 (v : Val) (k1 k2 : String) : Option Val :=
  match valLookup v k1 with
  | some w => valLookup w k2
  | none => none

/-- Sanity check of the embedding against the published HMAC-SHA256 test vector
for key "key" and the quick brown fox message. -/
theorem hmacSha256Hex_test_vector :
    hmacSha256Hex "key" "The quick brown fox jumps over the lazy dog" =
      "f7bc83f430538424b13298e6aa6fb143ef4d59a14946175997479dbc2d1a3cd8" := by
  rfl

theorem lookup_filter_ne (l : List (String × Session)) (sid : String) :
    (l.filter (fun kv => kv.1 != sid)).lookup sid = none := by
  induction l with
  | nil => rfl
  | cons kv rest ih =>
    by_cases h : kv.1 = sid
    · simp [List.filter, h, ih]
    · have hb : (kv.1 != sid) = true := by simp [bne_iff_ne, h]
      have hs : (sid == kv.1) = false := by
        simp [beq_eq_false_iff_ne]
        exact fun he => h he.symm
      simp [List.filter, hb, List.lookup, hs, ih]

theorem lookup_filter_keep (l : List (String × Session)) (p : String × Session → Bool)
    (sid : String) (v : Session) (hl : l.lookup sid = some v) (hp : p (sid, v) = true) :
    (l.filter p).lookup sid = some v := by
  induction l with
  | nil => simp [List.lookup] at hl
  | cons kv rest ih =>
    by_cases h : sid = kv.1
    · have hb : (sid == kv.1) = true := by simp [h]
      have hv : kv.2 = v := by
        simp [List.lookup, hb] at hl
        exact hl
      have hkv : kv = (sid, v) := by
        cases kv
        simp_all
      subst hkv
      simp [List.filter, hp, List.lookup]
    · have hb : (sid == kv.1) = false := by simp [beq_eq_false_iff_ne, h]
      simp only [List.lookup, hb] at hl
      cases hpk : p kv
      · simp [List.filter, hpk, ih hl]
      · simp [List.filter, hpk, List.lookup, hb, ih hl]

theorem lookup_map_update (l : List (String × Session)) (sid : String)
    (f : Session → Session) :
    (l.map (fun kv => if kv.1 = sid then (kv.1, f kv.2) else kv)).lookup sid =
      (l.lookup sid).map f := by
  induction l with
  | nil => rfl
  | cons kv rest ih =>
    obtain ⟨k, v⟩ := kv
    simp only [List.map_cons]
    by_cases h : k = sid
    · rw [if_pos h]
      have hs : (sid == k) = true := by simp [h]
      simp [List.lookup, hs]
    · rw [if_neg h]
      have hs : (sid == k) = false := by
        simp [beq_eq_false_iff_ne]
        exact fun he => h he.symm
      simp [List.lookup, hs, ih]

/-- Lookup of the modified session after Store.update, when the updated
record is itself unexpired so the sweep cannot evict it. -/
theorem lookup_store_update (st : Store) (sid : String) (f : Session → Session)
    (now : Nat) (s : Session) (hl : st.sessions.lookup sid = some s)
    (hfresh : ¬ (now - (f s).created > SESSION_TTL)) :
    (Store.update st sid f now).sessions.lookup sid = some (f s) := by
  unfold Store.update
  have hsome : (st.sessions.lookup sid).isSome = true := by rw [hl]; rfl
  rw [if_pos hsome]
  unfold Store.cleanup
  by_cases hc : now - st.last_cleanup > 300
  · rw [if_pos hc]
    apply lookup_filter_keep
    · rw [lookup_map_update, hl]; rfl
    · simp [hfresh]
  · rw [if_neg hc]
    rw [lookup_map_update, hl]; rfl

/-! ## Claim C8: session expiry -/

/-- Claim C8: a session fetched after its TTL has elapsed behaves exactly
like a session that was never created: the get returns not-found and deletes
the expired entry, and a second get on the resulting store returns not-found
and leaves the store as it is, with no entry under the id. -/
theorem session_expiry_behaves_as_missing (st : Store) (sid : String) (now : Nat)
    (s : Session) (hlook : st.sessions.lookup sid = some s)
    (hexp : now - s.created > SESSION_TTL) :
    Store.get st sid now =
      (none, ⟨st.sessions.filter (fun kv => kv.1 != sid), st.last_cleanup⟩) ∧
    (st.sessions.filter (fun kv => kv.1 != sid)).lookup sid = none ∧
    Store.get ⟨st.sessions.filter (fun kv => kv.1 != sid), st.last_cleanup⟩ sid now =
      (none, ⟨st.sessions.filter (fun kv => kv.1 != sid), st.last_cleanup⟩) := by
  refine ⟨?_, lookup_filter_ne st.sessions sid, ?_⟩
  · unfold Store.get
    rw [hlook]
    simp only [if_pos hexp]
  · unfold Store.get
    rw [lookup_filter_ne st.sessions sid]

/-- Witness for C8 at a concrete store: a session created at time 0 fetched
at time 4000 is gone and the store equals the never-created one. -/
theorem session_expiry_behaves_as_missing_witness :
    Store.get ⟨[("s", ⟨0, none, 0, 0, 0⟩)], 0⟩ "s" 4000 = (none, ⟨[], 0⟩) ∧
    Store.get (⟨[], 0⟩ : Store) "s" 4000 = (none, ⟨[], 0⟩) := by
  have h := session_expiry_behaves_as_missing ⟨[("s", ⟨0, none, 0, 0, 0⟩)], 0⟩ "s" 4000
    ⟨0, none, 0, 0, 0⟩ (by rfl) (by decide)
  exact ⟨h.1, h.2.2⟩

/-! ## Claim C2: signature round trip -/

/-- Claim C2 (amended): the signature round trip verify(s, p, sign(s, p))
succeeds at signing time and for any verification within WINDOW_SECONDS
(300 seconds) of signing: the verifier accepts the current and the previous
window, and within 300 seconds the signing window is always one of them. -/
theorem signature_roundtrip_within_window (secret s p : String) (t tv : Nat)
    (h1 : t ≤ tv) (h2 : tv ≤ t + WINDOW_SECONDS) :
    verify_signature secret s p (sign_payload secret s p t) tv = true := by
  have hle : t / WINDOW_SECONDS ≤ tv / WINDOW_SECONDS := Nat.div_le_div_right h1
  have hub : tv / WINDOW_SECONDS ≤ t / WINDOW_SECONDS + 1 := by
    calc tv / WINDOW_SECONDS ≤ (t + WINDOW_SECONDS) / WINDOW_SECONDS :=
          Nat.div_le_div_right h2
      _ = t / WINDOW_SECONDS + 1 := Nat.add_div_right t (by norm_num [WINDOW_SECONDS])
  unfold verify_signature sign_payload
  simp only [List.any_cons, List.any_nil, Bool.or_false, Bool.or_eq_true]
  rcases (by omega :
      tv / WINDOW_SECONDS = t / WINDOW_SECONDS ∨
      tv / WINDOW_SECONDS = t / WINDOW_SECONDS + 1) with hc | hc
  · left
    have harg : ((tv / WINDOW_SECONDS : Nat) : Int) + 0 = ((t / WINDOW_SECONDS : Nat) : Int) := by
      rw [hc]; ring
    rw [harg]
    exact beq_self_eq_true _
  · right
    have harg : ((tv / WINDOW_SECONDS : Nat) : Int) + -1 = ((t / WINDOW_SECONDS : Nat) : Int) := by
      rw [hc]; push_cast; ring
    rw [harg]
    exact beq_self_eq_true _

/-- Witness for the amended C2 at concrete values: a signature made at time
1000 verifies 250 seconds later. -/
theorem signature_roundtrip_within_window_witness :
    verify_signature "k" "s" "p" (sign_payload "k" "s" "p" 1000) 1250 = true :=
  signature_roundtrip_within_window "k" "s" "p" 1000 1250 (by decide) (by decide)

/-- Counterexample to C2 as stated: signing at time 299 and verifying at
time 600 is a verification within 2 * WINDOW_SECONDS of signing (301 of 600
seconds), yet verification fails, because the signing window 0 is neither
the current window 2 nor the previous window 1. -/
theorem signature_roundtrip_two_windows_counterexample :
    600 - 299 ≤ 2 * WINDOW_SECONDS ∧
    verify_signature "k" "s" "p" (sign_payload "k" "s" "p" 299) 600 = false := by
  constructor
  · decide
  · rfl

/-! ## Claim C3: rate limiting -/

/-- Claim C3: on a session with an active challenge whose stored signature
verifies, an attempt arriving when attempts is at least 6 and less than 60
seconds after last_attempt is rejected with the rate-limited error, the
session state is untouched, and the oracle judge is not called. -/
theorem validator_rate_limited_no_oracle (secret : String) (st : Store) (sid : String)
    (ans : Val) (now : Nat) (session : Session) (stored : StoredCaptcha)
    (hlook : st.sessions.lookup sid = some session)
    (hfresh : ¬ (now - session.created > SESSION_TTL))
    (hcap : session.captcha = some stored)
    (hsig : verify_signature secret sid (jsonDumps stored.challenge) stored.signature now = true)
    (hatt : session.attempts ≥ 6)
    (hwin : now - session.last_attempt < 60) :
    ValidatorAgent.run secret st sid ans now =
      ⟨ValidatorAgent.rateLimitResult, st, false⟩ := by
  have hget : Store.get st sid now = (some session, st) := by
    unfold Store.get
    rw [hlook]
    exact if_neg hfresh
  unfold ValidatorAgent.run
  simp only [hget, hcap]
  rw [if_pos hsig, if_pos ⟨hatt, hwin⟩]

/-! ## Claim C10: rejected attempts leave the session unchanged -/

/-- Claim C10: when the validator rejects because the stored signature fails
verification, or because the rate limit applies, the store is returned
exactly as it was (attempts not incremented, last_attempt not updated, the
active challenge retained) and the oracle judge is not called. -/
theorem validator_reject_leaves_store_unchanged (secret : String) (st : Store)
    (sid : String) (ans : Val) (now : Nat) (session : Session) (stored : StoredCaptcha)
    (hlook : st.sessions.lookup sid = some session)
    (hfresh : ¬ (now - session.created > SESSION_TTL))
    (hcap : session.captcha = some stored) :
    (verify_signature secret sid (jsonDumps stored.challenge) stored.signature now = false →
      ValidatorAgent.run secret st sid ans now = ⟨ValidatorAgent.sigFailResult, st, false⟩) ∧
    (verify_signature secret sid (jsonDumps stored.challenge) stored.signature now = true →
      session.attempts ≥ 6 → now - session.last_attempt < 60 →
      ValidatorAgent.run secret st sid ans now = ⟨ValidatorAgent.rateLimitResult, st, false⟩) := by
  have hget : Store.get st sid now = (some session, st) := by
    unfold Store.get
    rw [hlook]
    exact if_neg hfresh
  constructor
  · intro hsig
    unfold ValidatorAgent.run
    simp only [hget, hcap]
    rw [if_neg (by rw [hsig]; exact Bool.false_ne_true)]
  · intro hsig hatt hwin
    exact validator_rate_limited_no_oracle secret st sid ans now session stored
      hlook hfresh hcap hsig hatt hwin

/-! ## Claim C5: a correct answer clears the challenge -/

/-- Claim C5: when the oracle judges the submitted answer correct, the run
reports success, the stored session has its active challenge cleared and its
attempts counter reset to 0, and every subsequent submission on the same
session is rejected with the no-active-captcha error. -/
theorem validator_correct_clears_challenge (secret : String) (st : Store) (sid : String)
    (ans : Val) (now : Nat) (session : Session) (stored : StoredCaptcha)
    (hlook : st.sessions.lookup sid = some session)
    (hfresh : ¬ (now - session.created > SESSION_TTL))
    (hcap : session.captcha = some stored)
    (hsig : verify_signature secret sid (jsonDumps stored.challenge) stored.signature now = true)
    (hrate : ¬ (session.attempts ≥ 6 ∧ now - session.last_attempt < 60))
    (hok : (verify_with_ai stored.challenge ans).ok = true)
    (hcorrect : (verify_with_ai stored.challenge ans).correct = true) :
    valLookup (ValidatorAgent.run secret st sid ans now).result "success" =
      some (.vBool true) ∧
    (∃ s2, (ValidatorAgent.run secret st sid ans now).store.sessions.lookup sid = some s2 ∧
      s2.captcha = none ∧ s2.attempts = 0) ∧
    (∀ ans2 now2,
      (ValidatorAgent.run secret ((ValidatorAgent.run secret st sid ans now).store)
          sid ans2 now2).result = ValidatorAgent.noActiveResult) := by
  have hget : Store.get st sid now = (some session, st) := by
    unfold Store.get
    rw [hlook]
    exact if_neg hfresh
  have hrun : ValidatorAgent.run secret st sid ans now =
      ⟨.vObj [("success", .vBool true), ("message", .vStr "Captcha correct"),
              ("explanation", .vStr (verify_with_ai stored.challenge ans).explanation),
              ("normalized",
                if pyTruthy (((verify_with_ai stored.challenge ans).normalized).getD .vNull)
                then ((verify_with_ai stored.challenge ans).normalized).getD .vNull
                else ((verify_with_ai stored.challenge ans).normalized_answer).getD .vNull)],
        Store.update
          (Store.update st sid
            (fun s => { s with attempts := session.attempts + 1, last_attempt := now }) now)
          sid (fun s => { s with captcha := none, attempts := 0 }) now,
        true⟩ := by
    unfold ValidatorAgent.run
    simp only [hget, hcap]
    rw [if_pos hsig, if_neg hrate]
    rw [if_neg (by rw [hok]; exact fun h => Bool.false_ne_true h)]
    rw [if_pos hcorrect]
  have hlook2 : ((Store.update st sid
      (fun s => { s with attempts := session.attempts + 1, last_attempt := now })
      now).sessions).lookup sid =
      some { session with attempts := session.attempts + 1, last_attempt := now } :=
    lookup_store_update st sid _ now session hlook hfresh
  have hlook3 : (Store.update
      (Store.update st sid
        (fun s => { s with attempts := session.attempts + 1, last_attempt := now }) now)
      sid (fun s => { s with captcha := none, attempts := 0 }) now).sessions.lookup sid =
      some { session with attempts := 0, last_attempt := now, captcha := none } :=
    lookup_store_update
      (Store.update st sid
        (fun s => { s with attempts := session.attempts + 1, last_attempt := now }) now)
      sid (fun s => { s with captcha := none, attempts := 0 }) now
      { session with attempts := session.attempts + 1, last_attempt := now }
      hlook2 hfresh
  refine ⟨?_, ?_, ?_⟩
  · rw [hrun]
    rfl
  · refine ⟨{ session with attempts := 0, last_attempt := now, captcha := none }, ?_, rfl, rfl⟩
    rw [hrun]
    exact hlook3
  · intro ans2 now2
    rw [hrun]
    unfold ValidatorAgent.run
    unfold Store.get
    simp only [hlook3]
    by_cases hexp : now2 -
        ({ session with attempts := 0, last_attempt := now, captcha := none } : Session).created >
        SESSION_TTL
    · rw [if_pos hexp]
    · rw [if_neg hexp]

/-- Witness for C3: a 7th attempt 10 seconds after the 6th is rejected with
the rate-limited error, the store is unchanged and the oracle is not
called. -/
theorem validator_rate_limited_no_oracle_witness :
    ValidatorAgent.run "k" c3Store "s" (.vStr "w") 1000 =
      ⟨ValidatorAgent.rateLimitResult, c3Store, false⟩ :=
  validator_rate_limited_no_oracle "k" c3Store "s" (.vStr "w") 1000 c3Session
    ⟨wChallenge, wChallengeSig, 1000⟩ rfl (by decide) rfl (by rfl) (by decide) (by decide)

/-- Witness for C10: an attempt against a tampered stored signature is
rejected and the store comes back unchanged with the oracle not called. -/
theorem validator_reject_leaves_store_unchanged_witness :
    ValidatorAgent.run "k" c10Store "s" (.vStr "w") 1000 =
      ⟨ValidatorAgent.sigFailResult, c10Store, false⟩ :=
  (validator_reject_leaves_store_unchanged "k" c10Store "s" (.vStr "w") 1000 c10Session
    ⟨wChallenge, "bogus", 1000⟩ rfl (by decide) rfl).1 (by rfl)

/-- Witness for C5: submitting the right word w succeeds, the session ends
with no captcha and zero attempts, and any later submission gets the
no-active-captcha error. -/
theorem validator_correct_clears_challenge_witness :
    valLookup (ValidatorAgent.run "k" c5Store "s" (.vStr "w") 1000).result "success" =
      some (.vBool true) ∧
    (∃ s2, (ValidatorAgent.run "k" c5Store "s" (.vStr "w") 1000).store.sessions.lookup "s" =
        some s2 ∧ s2.captcha = none ∧ s2.attempts = 0) ∧
    (∀ ans2 now2,
      (ValidatorAgent.run "k" ((ValidatorAgent.run "k" c5Store "s" (.vStr "w") 1000).store)
          "s" ans2 now2).result = ValidatorAgent.noActiveResult) :=
  validator_correct_clears_challenge "k" c5Store "s" (.vStr "w") 1000 c5Session
    ⟨wChallenge, wChallengeSig, 1000⟩ rfl (by decide) rfl (by rfl) (by decide) rfl rfl

theorem exceptBind_ok {α β : Type} (a : α) (f : α → Except String β) :
    (Except.ok a >>= f) = f a := rfl

theorem exceptBind_err {α β : Type} (e : String) (f : α → Except String β) :
    ((Except.error e : Except String α) >>= f) = Except.error e := rfl

/-! ## Claim C4: render failure falls back to a synthetic text challenge -/

/-- Claim C4: whenever the rendering step of GeneratorAgent.run raises (for
any reason, including an unknown type), the oracle challenge content is
replaced by a synthetic text challenge whose word is the prefix solara plus
the time modulo 10000, with matching instructions and ui_data question, the
stored challenge carries metadata fallback = true plus the captured error
message and the fallback solution word, and the caller still receives an
ordinary challenge view, never a render error. -/
theorem generator_render_failure_fallback (env : RenderEnv) (secret : String)
    (st : Store) (sid : String) (now : Nat) (c0 uio : List (String × Val)) (e : String)
    (session : Session)
    (hlook : st.sessions.lookup sid = some session)
    (hfresh : ¬ (now - session.created > SESSION_TTL))
    (hui : asObj (if pyTruthy (objGetD c0 "ui_data" (.vObj [])) then
        objGetD c0 "ui_data" (.vObj []) else .vObj []) = .ok uio)
    (hrender : renderStep env (objGetD c0 "captcha_type" .vNull) uio c0 = .error e) :
    ∃ st2 sig,
      GeneratorAgent.run env secret st sid now (.vObj c0) =
        .ok (.vObj [
          ("captcha_id", objGetD c0 "captcha_id" (.vStr ("fallback-" ++ toString now))),
          ("captcha_type", .vStr "text"),
          ("instructions",
            .vStr ("Type the word " ++ apos ++ ("solara" ++ toString (now % 10000)) ++ apos)),
          ("ui_data", .vObj [("question",
            .vStr ("Type the word " ++ apos ++ ("solara" ++ toString (now % 10000)) ++ apos))]),
          ("signature", .vStr sig)], st2) ∧
      (∃ s2, st2.sessions.lookup sid = some s2 ∧
        ∃ sc, s2.captcha = some sc ∧
          valLookup sc.challenge "captcha_type" = some (.vStr "text") ∧
          valLookup sc.challenge "solution" =
            some (.vObj [("value", .vStr ("solara" ++ toString (now % 10000)))]) ∧
          valLookup sc.challenge "metadata" =
            some (.vObj [("fallback", .vBool true), ("render_error", .vStr e)])) := by
  have hget : Store.get st sid now = (some session, st) := by
    unfold Store.get
    rw [hlook]
    exact if_neg hfresh
  unfold GeneratorAgent.run
  simp only [hget]
  rw [show asObj (Val.vObj c0) = Except.ok c0 from rfl]
  simp only [exceptBind_ok]
  rw [hui]
  simp only [exceptBind_ok]
  rw [hrender]
  refine ⟨_, _, rfl, ?_⟩
  refine ⟨_, lookup_store_update st sid _ now session hlook hfresh, ?_⟩
  exact ⟨_, rfl, rfl, rfl, rfl⟩

/-- Witness for C4 at an unsupported challenge type: the client still gets a
text challenge view built from the word solara1000. -/
theorem generator_render_failure_fallback_witness :
    ∃ st2 sig,
      GeneratorAgent.run envOk "k" c4Store "s" 1000 (.vObj c4Challenge) =
        .ok (.vObj [
          ("captcha_id", objGetD c4Challenge "captcha_id" (.vStr ("fallback-" ++ toString 1000))),
          ("captcha_type", .vStr "text"),
          ("instructions",
            .vStr ("Type the word " ++ apos ++ ("solara" ++ toString (1000 % 10000)) ++ apos)),
          ("ui_data", .vObj [("question",
            .vStr ("Type the word " ++ apos ++ ("solara" ++ toString (1000 % 10000)) ++ apos))]),
          ("signature", .vStr sig)], st2) ∧
      (∃ s2, st2.sessions.lookup "s" = some s2 ∧
        ∃ sc, s2.captcha = some sc ∧
          valLookup sc.challenge "captcha_type" = some (.vStr "text") ∧
          valLookup sc.challenge "solution" =
            some (.vObj [("value", .vStr ("solara" ++ toString (1000 % 10000)))]) ∧
          valLookup sc.challenge "metadata" =
            some (.vObj [("fallback", .vBool true),
              ("render_error", .vStr ("Unsupported captcha_type " ++ apos ++ "video" ++ apos))])) :=
  generator_render_failure_fallback envOk "k" c4Store "s" 1000 c4Challenge [] _
    ⟨1000, none, 0, 0, 0⟩ rfl (by decide) rfl rfl

/-! ## Claim C1: what the client view contains -/

/-- Claim C1 (amended): every view the orchestrator returns carries only the
keys captcha_id, captcha_type, instructions, ui_data and signature (or the
invalid-session error): the solution object and the metadata are never
included as fields of the view. -/
theorem generator_view_omits_solution_and_metadata (env : RenderEnv) (secret : String)
    (st : Store) (sid : String) (now : Nat) (challenge0 view : Val) (st2 : Store)
    (h : GeneratorAgent.run env secret st sid now challenge0 = .ok (view, st2)) :
    valLookup view "solution" = none ∧ valLookup view "metadata" = none := by
  unfold GeneratorAgent.run at h
  rcases hget : Store.get st sid now with ⟨_ | session, st1⟩
  · simp only [hget] at h
    injection h with hpair
    injection hpair with hv hst
    subst hv
    exact ⟨rfl, rfl⟩
  · simp only [hget] at h
    rcases hobj : asObj challenge0 with e | c0
    · rw [hobj, exceptBind_err] at h
      exact Except.noConfusion h
    · rw [hobj] at h
      simp only [exceptBind_ok] at h
      rcases hui : asObj (if pyTruthy (objGetD c0 "ui_data" (.vObj [])) then
          objGetD c0 "ui_data" (.vObj []) else .vObj []) with e2 | uio
      · rw [hui, exceptBind_err] at h
        exact Except.noConfusion h
      · rw [hui] at h
        simp only [exceptBind_ok] at h
        injection h with hpair
        injection hpair with hv hst
        subst hv
        exact ⟨rfl, rfl⟩

/-- Witness for the amended C1: a concrete issued view, shown to carry no
solution and no metadata key. -/
theorem generator_view_omits_solution_and_metadata_witness :
    ∃ view st2,
      GeneratorAgent.run envOk "k" c1wStore "s" 500 c1wChallenge = .ok (view, st2) ∧
      valLookup view "solution" = none ∧ valLookup view "metadata" = none := by
  obtain ⟨⟨view, st2⟩, hp⟩ :
      ∃ p, GeneratorAgent.run envOk "k" c1wStore "s" 500 c1wChallenge = .ok p := ⟨_, rfl⟩
  exact ⟨view, st2, hp,
    generator_view_omits_solution_and_metadata envOk "k" c1wStore "s" 500 c1wChallenge
      view st2 hp⟩

/-- Counterexample to C1 as stated: a locally generated click-target image
challenge (drawn within the generator ranges) has its exact solution
coordinates 100,50 written into the ui_data description that the client
view returns, so a solution value does appear inside the view. -/
theorem generator_view_contains_click_solution_counterexample :
    c1Choices.WF ∧
    valLookup (local_generate_random_challenge c1Choices) "solution" =
      some (.vObj [("x", .vInt 100), ("y", .vInt 50), ("tolerance", .vInt 15)]) ∧
    (GeneratorAgent.run envOk "k" c1Store "s" 1000
        (local_generate_random_challenge c1Choices)).toOption.map
      (fun p => valLookup2 p.1 "ui_data" "description") = some (some (.vStr c1Desc)) ∧
    strContainsSub c1Desc (toString (100 : Nat) ++ "," ++ toString (50 : Nat)) = true := by
  refine ⟨?_, rfl, ?_, ?_⟩
  · refine ⟨by decide, by decide, by decide, by decide, by decide, by decide, by decide,
      by decide, by decide, by decide, by decide, by decide, by decide⟩
  · rfl
  · rfl

/-! ## Claim C6: pattern answers are judged by exact sequence equality -/

theorem pyEqF_int_succ (f : Nat) (a b : Int) :
    pyEqF (f + 1) (.vInt a) (.vInt b) = (a == b) := rfl

/-- Elementwise equality over zipped integer lists of equal length is list
equality. -/
theorem zipAll_int (f : Nat) : ∀ (xs ys : List Int), xs.length = ys.length →
    ((((xs.map Val.vInt).zip (ys.map Val.vInt)).all
        (fun p => pyEqF (f + 1) p.1 p.2)) = true ↔ xs = ys) := by
  intro xs
  induction xs with
  | nil =>
    intro ys hlen
    cases ys with
    | nil => simp
    | cons y yt => simp at hlen
  | cons x xt ih =>
    intro ys hlen
    cases ys with
    | nil => simp at hlen
    | cons y yt =>
      have hlen2 : xt.length = yt.length := by simpa using hlen
      simp only [List.map_cons, List.zip_cons_cons, List.all_cons, pyEqF_int_succ,
        Bool.and_eq_true, beq_iff_eq, ih yt hlen2, List.cons.injEq]

/-- Python equality of two embedded integer sequences is exact, order
sensitive list equality. -/
theorem pyEq_intList (xs ys : List Int) :
    (pyEq (.vList (xs.map Val.vInt)) (.vList (ys.map Val.vInt)) = true) ↔ xs = ys := by
  have harm : pyEq (.vList (xs.map Val.vInt)) (.vList (ys.map Val.vInt)) =
      ((xs.map Val.vInt).length == (ys.map Val.vInt).length &&
        ((xs.map Val.vInt).zip (ys.map Val.vInt)).all
          (fun p => pyEqF (999998 + 1) p.1 p.2)) := rfl
  rw [harm, Bool.and_eq_true]
  simp only [List.length_map, beq_iff_eq]
  constructor
  · rintro ⟨hlen, hall⟩
    exact (zipAll_int 999998 xs ys hlen).mp hall
  · rintro rfl
    exact ⟨rfl, (zipAll_int 999998 xs xs rfl).mpr rfl⟩

/-- Claim C6: the local fallback judges a pattern challenge by exact, order
sensitive equality of the answer sequence with solution.sequence, accepting
the answer either as a native integer list or as a comma separated string of
digit indices parsed by parsePatternIndices. -/
theorem pattern_verify_exact_sequence (kvs sol : List (String × Val)) (es : List Int)
    (hty : objGetD kvs "captcha_type" .vNull = .vStr "pattern")
    (hsol : objGetD kvs "solution" (.vObj []) = .vObj sol)
    (hseq : objGetD sol "sequence" .vNull = .vList (es.map Val.vInt))
    (hne : es ≠ []) :
    (∀ us : List Int,
      (verify_with_ai (.vObj kvs) (.vList (us.map Val.vInt))).ok = true ∧
      ((verify_with_ai (.vObj kvs) (.vList (us.map Val.vInt))).correct = true ↔ us = es)) ∧
    (∀ t : String, strHasComma t = true →
      (verify_with_ai (.vObj kvs) (.vStr t)).ok = true ∧
      ((verify_with_ai (.vObj kvs) (.vStr t)).correct = true ↔
        (parsePatternIndices t).map (fun n => (n : Int)) = es)) := by
  have htr : pyTruthy (Val.vList (es.map Val.vInt)) = true := by
    cases es with
    | nil => exact absurd rfl hne
    | cons e et => rfl
  have hbody : ∀ ans : Val,
      verifyBody (.vObj kvs) ans =
        Except.ok
          ⟨true,
            pyEq (match ans with
              | .vStr t =>
                if strHasComma t then
                  .vList ((parsePatternIndices t).map (fun n => .vInt (n : Int)))
                else .vStr t
              | .vList xs => .vList xs
              | _ => .vList []) (.vList (es.map Val.vInt)),
            "fallback-sequence-compare",
            some (match ans with
              | .vStr t =>
                if strHasComma t then
                  .vList ((parsePatternIndices t).map (fun n => .vInt (n : Int)))
                else .vStr t
              | .vList xs => .vList xs
              | _ => .vList []), none, none⟩ := by
    intro ans
    unfold verifyBody
    rw [show pyGetD (Val.vObj kvs) "captcha_type" Val.vNull =
        Except.ok (objGetD kvs "captcha_type" Val.vNull) from rfl, hty]
    simp only [exceptBind_ok]
    rw [show pyGetD (Val.vObj kvs) "solution" (Val.vObj []) =
        Except.ok (objGetD kvs "solution" (Val.vObj [])) from rfl, hsol]
    simp only [exceptBind_ok]
    rw [show isTypeIn (Val.vStr "pattern") ["text", "math", "audio"] = false from rfl]
    rw [show isTypeIn (Val.vStr "pattern") ["pattern"] = true from rfl]
    simp only [Bool.false_eq_true, if_false, if_true]
    rw [show pyGetD (Val.vObj sol) "sequence" Val.vNull =
        Except.ok (objGetD sol "sequence" Val.vNull) from rfl, hseq]
    simp only [exceptBind_ok]
    rw [show pyGetD (Val.vObj sol) "value" Val.vNull =
        Except.ok (objGetD sol "value" Val.vNull) from rfl]
    simp only [exceptBind_ok]
    rw [if_pos htr]
    rfl
  constructor
  · intro us
    have h := hbody (.vList (us.map Val.vInt))
    have hv : verify_with_ai (.vObj kvs) (.vList (us.map Val.vInt)) =
        ⟨true, pyEq (.vList (us.map Val.vInt)) (.vList (es.map Val.vInt)),
          "fallback-sequence-compare", some (.vList (us.map Val.vInt)), none, none⟩ := by
      unfold verify_with_ai
      rw [h]
    rw [hv]
    exact ⟨rfl, pyEq_intList us es⟩
  · intro t ht
    have h := hbody (.vStr t)
    have hmap : (parsePatternIndices t).map (fun n => Val.vInt (n : Int)) =
        ((parsePatternIndices t).map (fun n => (n : Int))).map Val.vInt := by
      rw [List.map_map]
      rfl
    have hv : verify_with_ai (.vObj kvs) (.vStr t) =
        ⟨true, pyEq (.vList ((parsePatternIndices t).map (fun n => .vInt (n : Int))))
            (.vList (es.map Val.vInt)),
          "fallback-sequence-compare",
          some (.vList ((parsePatternIndices t).map (fun n => .vInt (n : Int)))),
          none, none⟩ := by
      unfold verify_with_ai
      rw [h]
      simp only [ht, if_true]
    rw [hv]
    refine ⟨rfl, ?_⟩
    rw [hmap]
    exact pyEq_intList ((parsePatternIndices t).map (fun n => (n : Int))) es

/-- Witness for C6: the answer 2,0,1 is judged incorrect against the
solution 0,1,2, the answer 0,1,2 is judged correct both as a list and as a
comma separated string, and the judge reports ok. -/
theorem pattern_verify_exact_sequence_witness :
    (verify_with_ai (.vObj c6kvs) (.vList [.vInt 2, .vInt 0, .vInt 1])).correct = false ∧
    (verify_with_ai (.vObj c6kvs) (.vList [.vInt 0, .vInt 1, .vInt 2])).correct = true ∧
    (verify_with_ai (.vObj c6kvs) (.vStr "2,0,1")).correct = false ∧
    (verify_with_ai (.vObj c6kvs) (.vStr "0,1,2")).correct = true ∧
    (verify_with_ai (.vObj c6kvs) (.vList [.vInt 2, .vInt 0, .vInt 1])).ok = true := by
  have h := pattern_verify_exact_sequence c6kvs
    [("sequence", .vList [.vInt 0, .vInt 1, .vInt 2])] [0, 1, 2] rfl rfl rfl (by decide)
  have h201 := (show ([2, 0, 1] : List Int).map Val.vInt =
      [Val.vInt 2, Val.vInt 0, Val.vInt 1] from rfl) ▸ (h.1 [2, 0, 1])
  have h012 := (show ([0, 1, 2] : List Int).map Val.vInt =
      [Val.vInt 0, Val.vInt 1, Val.vInt 2] from rfl) ▸ (h.1 [0, 1, 2])
  refine ⟨?_, h012.2.mpr rfl, ?_, (h.2 "0,1,2" rfl).2.mpr rfl, h201.1⟩
  · exact Bool.eq_false_iff.mpr (fun hc => absurd (h201.2.mp hc) (by decide))
  · exact Bool.eq_false_iff.mpr
      (fun hc => absurd ((h.2 "2,0,1" rfl).2.mp hc) (by decide))

/-! ## Claim C7: image click answers are judged by euclidean distance -/

/-- Claim C7: for an image challenge whose solution has integer x, y and
tolerance fields, the local fallback accepts the answer as a dict with x and
y or as a coordinate pair, and judges it correct exactly when the euclidean
distance from the answer to the target is at most the tolerance. -/
theorem image_verify_tolerance (kvs sol : List (String × Val)) (tx ty tol : Int)
    (hty : objGetD kvs "captcha_type" .vNull = .vStr "image")
    (hsol : objGetD kvs "solution" (.vObj []) = .vObj sol)
    (hx : sol.lookup "x" = some (.vInt tx))
    (hy : sol.lookup "y" = some (.vInt ty))
    (htol : sol.lookup "tolerance" = some (.vInt tol))
    (htolpos : 0 ≤ tol) (ux uy : Int) :
    (verify_with_ai (.vObj kvs) (.vObj [("x", .vInt ux), ("y", .vInt uy)])).ok = true ∧
    ((verify_with_ai (.vObj kvs) (.vObj [("x", .vInt ux), ("y", .vInt uy)])).correct = true ↔
      Real.sqrt (((ux - tx) ^ 2 + (uy - ty) ^ 2 : Int) : ℝ) ≤ (tol : ℝ)) ∧
    verify_with_ai (.vObj kvs) (.vList [.vInt ux, .vInt uy]) =
      verify_with_ai (.vObj kvs) (.vObj [("x", .vInt ux), ("y", .vInt uy)]) := by
  have hbody : ∀ ans : Val,
      (match ans with
        | .vObj avs => avs.lookup "x" = some (.vInt ux) ∧ avs.lookup "y" = some (.vInt uy)
        | .vList xs => xs = [.vInt ux, .vInt uy]
        | _ => False) →
      verifyBody (.vObj kvs) ans =
        Except.ok ⟨true, decide (0 ≤ tol) && decide ((ux - tx) ^ 2 + (uy - ty) ^ 2 ≤ tol ^ 2),
          "fallback-point", none, none, none⟩ := by
    intro ans hans
    unfold verifyBody
    rw [show pyGetD (Val.vObj kvs) "captcha_type" Val.vNull =
        Except.ok (objGetD kvs "captcha_type" Val.vNull) from rfl, hty]
    simp only [exceptBind_ok]
    rw [show pyGetD (Val.vObj kvs) "solution" (Val.vObj []) =
        Except.ok (objGetD kvs "solution" (Val.vObj [])) from rfl, hsol]
    simp only [exceptBind_ok]
    rw [show isTypeIn (Val.vStr "image") ["text", "math", "audio"] = false from rfl]
    rw [show isTypeIn (Val.vStr "image") ["pattern"] = false from rfl]
    rw [show isTypeIn (Val.vStr "image") ["image"] = true from rfl]
    simp only [Bool.false_eq_true, if_false, if_true]
    rw [show pyContains (Val.vObj sol) "x" = Except.ok ((sol.lookup "x").isSome) from rfl, hx]
    simp only [exceptBind_ok, Option.isSome_some, if_true]
    rw [show pyContains (Val.vObj sol) "y" = Except.ok ((sol.lookup "y").isSome) from rfl, hy]
    simp only [exceptBind_ok, Option.isSome_some, Bool.and_self, if_true]
    have hgx : objGetD sol "x" Val.vNull = Val.vInt tx := by
      unfold objGetD
      rw [hx]
    have hgy : objGetD sol "y" Val.vNull = Val.vInt ty := by
      unfold objGetD
      rw [hy]
    have hgt : objGetD sol "tolerance" (Val.vInt 18) = Val.vInt tol := by
      unfold objGetD
      rw [htol]
    rw [show pyGetD (Val.vObj sol) "x" Val.vNull =
        Except.ok (objGetD sol "x" Val.vNull) from rfl, hgx]
    simp only [exceptBind_ok]
    rw [show pyGetD (Val.vObj sol) "y" Val.vNull =
        Except.ok (objGetD sol "y" Val.vNull) from rfl, hgy]
    simp only [exceptBind_ok]
    rw [show pyGetD (Val.vObj sol) "tolerance" (Val.vInt 18) =
        Except.ok (objGetD sol "tolerance" (Val.vInt 18)) from rfl, hgt]
    simp only [exceptBind_ok]
    match ans, hans with
    | .vObj avs, ⟨hax, hay⟩ =>
      have hgax : objGetD avs "x" (Val.vInt (-9999)) = Val.vInt ux := by
        unfold objGetD
        rw [hax]
      have hgay : objGetD avs "y" (Val.vInt (-9999)) = Val.vInt uy := by
        unfold objGetD
        rw [hay]
      simp only [hgax, hgay]
      rfl
    | .vList xs, hxs =>
      subst hxs
      rfl
  have hobjAns : verify_with_ai (.vObj kvs) (.vObj [("x", .vInt ux), ("y", .vInt uy)]) =
      ⟨true, decide (0 ≤ tol) && decide ((ux - tx) ^ 2 + (uy - ty) ^ 2 ≤ tol ^ 2),
        "fallback-point", none, none, none⟩ := by
    unfold verify_with_ai
    rw [hbody (.vObj [("x", .vInt ux), ("y", .vInt uy)]) ⟨rfl, rfl⟩]
  have hlistAns : verify_with_ai (.vObj kvs) (.vList [.vInt ux, .vInt uy]) =
      ⟨true, decide (0 ≤ tol) && decide ((ux - tx) ^ 2 + (uy - ty) ^ 2 ≤ tol ^ 2),
        "fallback-point", none, none, none⟩ := by
    unfold verify_with_ai
    rw [hbody (.vList [.vInt ux, .vInt uy]) rfl]
  refine ⟨by rw [hobjAns], ?_, by rw [hobjAns, hlistAns]⟩
  rw [hobjAns]
  show (decide (0 ≤ tol) && decide ((ux - tx) ^ 2 + (uy - ty) ^ 2 ≤ tol ^ 2)) = true ↔ _
  rw [decide_eq_true htolpos, Bool.true_and, decide_eq_true_eq]
  have hcast : (0 : ℝ) ≤ (tol : ℝ) := by exact_mod_cast htolpos
  rw [Real.sqrt_le_left hcast]
  constructor
  · intro h
    exact_mod_cast h
  · intro h
    exact_mod_cast h

/-- Witness for C7: the answer (108, 105) at distance about 9.4 is judged
correct, the answer (120, 120) at distance about 28.3 is judged incorrect,
and the accepted click satisfies the euclidean bound. -/
theorem image_verify_tolerance_witness :
    (verify_with_ai (.vObj c7kvs) (.vObj [("x", .vInt 108), ("y", .vInt 105)])).correct
      = true ∧
    (verify_with_ai (.vObj c7kvs) (.vObj [("x", .vInt 120), ("y", .vInt 120)])).correct
      = false ∧
    (verify_with_ai (.vObj c7kvs) (.vList [.vInt 108, .vInt 105])).correct = true ∧
    Real.sqrt ((((108 : Int) - 100) ^ 2 + ((105 : Int) - 100) ^ 2 : Int) : ℝ) ≤
      ((15 : Int) : ℝ) := by
  have h1 := image_verify_tolerance c7kvs
    [("x", .vInt 100), ("y", .vInt 100), ("tolerance", .vInt 15)]
    100 100 15 rfl rfl rfl rfl rfl (by decide) 108 105
  exact ⟨by rfl, by rfl, by rfl, h1.2.1.mp (by rfl)⟩

/-! ## Claim C9: verify_with_ai is total at its boundary -/

/-- A name outside a type list never dispatches. -/
theorem isTypeIn_false_of_not_mem (t : String) (ts : List String)
    (h : ∀ x ∈ ts, t ≠ x) : isTypeIn (.vStr t) ts = false := by
  induction ts with
  | nil => rfl
  | cons a rest ih =>
    have hne : (t == a) = false := by
      rw [beq_eq_false_iff_ne]
      exact h a (by simp)
    show (match t == a with
      | true => true
      | false => List.elem t rest) = false
    rw [hne]
    exact ih (fun x hx => h x (by simp [hx]))

/-- Claim C9: verify_with_ai never lets an exception escape: every raise
inside the body is converted at the boundary into an ok=false,
correct=false result whose explanation marks the fallback exception and
whose error field carries the message; and an unknown challenge type is
answered with ok=false and correct=false. -/
theorem verify_with_ai_total_boundary (c ans : Val) :
    (∀ e, verifyBody c ans = .error e →
      verify_with_ai c ans = ⟨false, false, "fallback-exception", none, none, some e⟩) ∧
    (∀ kvs t, c = .vObj kvs → objGetD kvs "captcha_type" .vNull = .vStr t →
      t ∉ ["text", "math", "audio", "pattern", "image", "color"] →
      (verify_with_ai c ans).ok = false ∧ (verify_with_ai c ans).correct = false) := by
  constructor
  · intro e he
    unfold verify_with_ai
    rw [he]
  · rintro kvs t rfl hty hmem
    have hne : ∀ x ∈ ["text", "math", "audio", "pattern", "image", "color"], t ≠ x := by
      intro x hxmem heq
      exact hmem (heq ▸ hxmem)
    have hbody : verifyBody (.vObj kvs) ans =
        Except.ok ⟨false, false, "unsupported-type-fallback", none, none, none⟩ := by
      unfold verifyBody
      rw [show pyGetD (Val.vObj kvs) "captcha_type" Val.vNull =
          Except.ok (objGetD kvs "captcha_type" Val.vNull) from rfl, hty]
      simp only [exceptBind_ok]
      rw [show pyGetD (Val.vObj kvs) "solution" (Val.vObj []) =
          Except.ok (objGetD kvs "solution" (Val.vObj [])) from rfl]
      simp only [exceptBind_ok]
      rw [isTypeIn_false_of_not_mem t ["text", "math", "audio"]
        (fun x hx => hne x (by simp at hx ⊢; tauto))]
      rw [isTypeIn_false_of_not_mem t ["pattern"]
        (fun x hx => hne x (by simp at hx ⊢; tauto))]
      rw [isTypeIn_false_of_not_mem t ["image"]
        (fun x hx => hne x (by simp at hx ⊢; tauto))]
      rw [isTypeIn_false_of_not_mem t ["color"]
        (fun x hx => hne x (by simp at hx ⊢; tauto))]
      simp only [Bool.false_eq_true, if_false]
      rfl
    have hv : verify_with_ai (.vObj kvs) ans =
        ⟨false, false, "unsupported-type-fallback", none, none, none⟩ := by
      unfold verify_with_ai
      rw [hbody]
    rw [hv]
    exact ⟨rfl, rfl⟩

/-- Witness for C9: the raise inside the text branch is converted into the
boundary fallback result, and the unknown type video gets ok=false,
correct=false. -/
theorem verify_with_ai_total_boundary_witness :
    verify_with_ai c9bad (.vStr "a") =
      ⟨false, false, "fallback-exception", none, none,
        some "AttributeError: get on a non-dict value"⟩ ∧
    (verify_with_ai c9unk (.vStr "a")).ok = false ∧
    (verify_with_ai c9unk (.vStr "a")).correct = false := by
  refine ⟨(verify_with_ai_total_boundary c9bad (.vStr "a")).1 _ (by rfl), ?_, ?_⟩
  · exact ((verify_with_ai_total_boundary c9unk (.vStr "a")).2 _ "video" rfl rfl
      (by decide)).1
  · exact ((verify_with_ai_total_boundary c9unk (.vStr "a")).2 _ "video" rfl rfl
      (by decide)).2
